import Mathlib

/-!
Verification of the traffic-quality core: a shallow embedding of
`src/app/metrics.py`, `src/app/scoring.py`, `src/app/crud.py` (detect_issues)
and `src/app/analysis.py`.

Modelling conventions:
* A pandas DataFrame of leads is a `List Lead`; a calendar date is an integer
  day number (so `analysis_date - creation_date` is integer subtraction, as
  with `datetime.date` differences in the source).
* Python floats are idealised as exact rationals (`ℚ`); `round(x, n)` is
  round-half-to-even on the rational value (`pyRound`), matching Python's
  rounding rule on the mathematical value.
* `app/config.py` is not part of the sources provided, so the status
  classification sets and the benchmark curve are passed as an explicit
  `Config` record; `SCORING_WINDOW_DAYS` is modelled from the spec (§4.2: W = 8).
* `pandas.groupby` iterates groups in ascending key order, so cohort loops are
  embedded as maps over the ascending list of distinct dates; the subsequent
  stable `cohorts.sort(key=date)` in `calc_score` is then the identity.
* Fallible paths (Python exceptions) are embedded with `Except String`.
-/

namespace TrafficQuality

/-- Round-half-to-even to an integer, Python's rounding rule on exact values.
Uses the executable `Rat.floor` so that concrete witnesses evaluate. -/
def pyRoundInt (q : ℚ) : ℤ :=
  let f : ℤ := q.floor
  let frac : ℚ := q - f
  if frac < 1/2 then f
  else if 1/2 < frac then f + 1
  else if f % 2 = 0 then f else f + 1

/-- Python `round(q, n)` idealised on rationals. -/
def pyRound (q : ℚ) (n : ℕ) : ℚ :=
  (pyRoundInt (q * 10 ^ n) : ℚ) / 10 ^ n

/-- One lead row, the shape produced by `parser.load` / `crud.fetch_leads_df`:
`[id_custom, status, date, webmaster, sum]`, with the date as a day number. -/
structure Lead where
  id_custom : ℤ
  status : ℤ
  date : ℤ
  webmaster : String
  sum : ℚ
deriving DecidableEq, Repr

/-- The configuration imported from `app.config` (the module itself is not in
the provided sources): the three status sets and the benchmark curve
`BUYOUT_BENCHMARK` (a dict keyed 1..8, modelled as a total function). -/
structure Config where
  approveStatuses : List ℤ
  buyoutStatuses : List ℤ
  trashStatuses : List ℤ
  benchmark : ℕ → ℚ

/-- Modelled from the spec: `SCORING_WINDOW_DAYS` lives in the missing
`app/config.py`; §4.2 fixes the scoring window W to 8 days. -/
def SCORING_WINDOW_DAYS : ℕ := 8

/-- `series.isin(statuses).sum()` — count of leads whose status is in the set. -/
def countStatus (statuses : List ℤ) (leads : List Lead) : ℕ :=
  leads.countP (fun l => decide (l.status ∈ statuses))

/-- `metrics._pct`: safe percentage, `round(n / d * 100, 2)` and `0.0` on a
zero denominator. -/
def _pct (numerator denominator : ℕ) : ℚ :=
  if denominator ≠ 0 then pyRound ((numerator : ℚ) / denominator * 100) 2 else 0

/-- `metrics.WebmasterMetrics`. -/
structure WebmasterMetrics where
  webmaster : String
  total : ℕ
  approved : ℕ
  bought_out : ℕ
  trash : ℕ
  approve_pct : ℚ
  buyout_pct : ℚ
  trash_pct : ℚ
deriving DecidableEq, Repr

/-- `metrics.calc_webmaster_metrics`. -/
def calc_webmaster_metrics (cfg : Config) (df : List Lead) (wm : String) :
    WebmasterMetrics :=
  let wdf := df.filter (fun l => decide (l.webmaster = wm))
  let total := wdf.length
  let approved := countStatus cfg.approveStatuses wdf
  let bought_out := countStatus cfg.buyoutStatuses wdf
  let trash := countStatus cfg.trashStatuses wdf
  { webmaster := wm
    total := total
    approved := approved
    bought_out := bought_out
    trash := trash
    approve_pct := _pct approved total
    buyout_pct := _pct bought_out approved
    trash_pct := _pct trash total }

/-- Example benchmark curve used by concrete witnesses (day 1 → 0.10, …,
day 8 → 0.65, the shape described in the docstrings). -/
def benchEx : ℕ → ℚ
  | 1 => 1/10
  | 2 => 2/10
  | 3 => 3/10
  | 4 => 4/10
  | 5 => 45/100
  | 6 => 5/10
  | 7 => 6/10
  | _ => 65/100

/-- Example configuration for concrete witnesses: statuses 1,2 count as
approved, 2 as bought out (so BoughtOut ⊆ Approved), 3 as trash. -/
def cfgEx : Config :=
  { approveStatuses := [1, 2]
    buyoutStatuses := [2]
    trashStatuses := [3]
    benchmark := benchEx }

/-- The executable `Rat.floor` agrees with the mathematical floor. -/
theorem ratFloor_eq_floor (q : ℚ) : q.floor = ⌊q⌋ := by
  rw [Rat.floor_def', Rat.floor_def]

/-- `pyRoundInt` phrased with the mathematical floor, for evaluation and
for the bound lemmas below. -/
theorem pyRoundInt_eq (q : ℚ) :
    pyRoundInt q =
      if q - ⌊q⌋ < 1/2 then ⌊q⌋
      else if 1/2 < q - ⌊q⌋ then ⌊q⌋ + 1
      else if ⌊q⌋ % 2 = 0 then ⌊q⌋ else ⌊q⌋ + 1 := by
  unfold pyRoundInt
  rw [ratFloor_eq_floor]

example : pyRound (1/3 * 100) 2 = 3333/100 := by
  norm_num [pyRound, pyRoundInt_eq, Int.floor_eq_iff]
example : pyRound (1/8 * 100) 2 = 25/2 := by
  norm_num [pyRound, pyRoundInt_eq, Int.floor_eq_iff]
example : _pct 2 8 = 25 := by
  norm_num [_pct, pyRound, pyRoundInt_eq, Int.floor_eq_iff]
example : _pct 5 0 = 0 := by norm_num [_pct]
/-- Projection lemmas letting concrete percentage evaluations go through the
kernel-computable counts. -/
theorem calc_webmaster_metrics_buyout_pct (cfg : Config) (df : List Lead)
    (wm : String) :
    (calc_webmaster_metrics cfg df wm).buyout_pct =
      _pct (calc_webmaster_metrics cfg df wm).bought_out
        (calc_webmaster_metrics cfg df wm).approved := rfl

example :
    (calc_webmaster_metrics cfgEx
      [⟨1, 1, 0, "A", 0⟩, ⟨2, 2, 0, "A", 0⟩, ⟨3, 3, 0, "A", 0⟩, ⟨4, 1, 0, "B", 0⟩]
      "A").buyout_pct = 50 := by
  rw [calc_webmaster_metrics_buyout_pct]
  rw [show (calc_webmaster_metrics cfgEx
      [⟨1, 1, 0, "A", 0⟩, ⟨2, 2, 0, "A", 0⟩, ⟨3, 3, 0, "A", 0⟩, ⟨4, 1, 0, "B", 0⟩]
      "A").bought_out = 1 from by decide]
  rw [show (calc_webmaster_metrics cfgEx
      [⟨1, 1, 0, "A", 0⟩, ⟨2, 2, 0, "A", 0⟩, ⟨3, 3, 0, "A", 0⟩, ⟨4, 1, 0, "B", 0⟩]
      "A").approved = 2 from by decide]
  norm_num [_pct, pyRound, pyRoundInt_eq, Int.floor_eq_iff]

/-! ### Scoring engine (`src/app/scoring.py`) -/

/-- `scoring._benchmark_for_age`: clamp the age to `[1, SCORING_WINDOW_DAYS]`
and look the benchmark up. -/
def _benchmark_for_age (cfg : Config) (age_days : ℤ) : ℚ :=
  let clamped : ℤ := max 1 (min age_days (SCORING_WINDOW_DAYS : ℤ))
  cfg.benchmark clamped.toNat

/-- Cohort age: `(analysis_date - day).days`, raised to 1 when below 1. -/
def ageOf (analysis_date day : ℤ) : ℤ :=
  let a := analysis_date - day
  if a < 1 then 1 else a

/-- `group = wdf[wdf["date"] == day]` for one day of a groupby. -/
def dayGroup (leads : List Lead) (d : ℤ) : List Lead :=
  leads.filter (fun l => decide (l.date = d))

/-- The distinct creation dates of a lead list in ascending order — the group
keys of `pandas.groupby("date")`, which iterates in sorted key order. -/
def sortedDedupDates (leads : List Lead) : List ℤ :=
  ((leads.map (fun l => l.date)).dedup).insertionSort (· ≤ ·)

/-- `approved` of one cohort group. -/
def approvedOf (cfg : Config) (g : List Lead) : ℕ :=
  countStatus cfg.approveStatuses g

/-- `bought_out` of one cohort group. -/
def boughtOf (cfg : Config) (g : List Lead) : ℕ :=
  countStatus cfg.buyoutStatuses g

/-- `actual_rate = bought_out / approved if approved else 0.0`. -/
def actualRateOf (cfg : Config) (g : List Lead) : ℚ :=
  if approvedOf cfg g ≠ 0 then (boughtOf cfg g : ℚ) / approvedOf cfg g else 0

/-- Unrounded `w_actual = approved * actual_rate` of one cohort group. -/
def wActual (cfg : Config) (g : List Lead) : ℚ :=
  (approvedOf cfg g : ℚ) * actualRateOf cfg g

/-- Unrounded `w_benchmark = approved * benchmark_rate` of one cohort group. -/
def wBenchmark (cfg : Config) (ad d : ℤ) (g : List Lead) : ℚ :=
  (approvedOf cfg g : ℚ) * _benchmark_for_age cfg (ageOf ad d)

/-- `scoring.CohortRow`. -/
structure CohortRow where
  date : ℤ
  age_days : ℤ
  leads : ℕ
  approved : ℕ
  bought_out : ℕ
  actual_buyout_rate : ℚ
  benchmark_rate : ℚ
  weighted_actual : ℚ
  weighted_benchmark : ℚ
deriving DecidableEq, Repr

/-- `scoring.ScoringResult`. -/
structure ScoringResult where
  webmaster : String
  analysis_date : ℤ
  cohorts : List CohortRow
  numerator : ℚ
  denominator : ℚ
  score : ℚ
  score_pct : ℚ
deriving DecidableEq, Repr

/-- One iteration of the cohort loop of `calc_score`. -/
def mkCohort (cfg : Config) (ad : ℤ) (wdf : List Lead) (d : ℤ) : CohortRow :=
  let g := dayGroup wdf d
  let age := ageOf ad d
  { date := d
    age_days := age
    leads := g.length
    approved := approvedOf cfg g
    bought_out := boughtOf cfg g
    actual_buyout_rate := pyRound (actualRateOf cfg g) 4
    benchmark_rate := pyRound (_benchmark_for_age cfg age) 4
    weighted_actual := pyRound (wActual cfg g) 2
    weighted_benchmark := pyRound (wBenchmark cfg ad d g) 2 }

/-- The webmaster's leads inside the scoring window:
`wdf = df[df["webmaster"] == webmaster]` then `wdf = wdf[wdf["date"] >= cutoff]`
with `cutoff = analysis_date - SCORING_WINDOW_DAYS`. -/
def windowLeads (df : List Lead) (wm : String) (ad : ℤ) : List Lead :=
  (df.filter (fun l => decide (l.webmaster = wm))).filter
    (fun l => decide (ad - (SCORING_WINDOW_DAYS : ℤ) ≤ l.date))

/-- `scoring.calc_score` with the analysis date already resolved. The
`cohorts.sort(key=date)` of the source is a stable no-op here because the
groupby already iterates dates in ascending order. -/
def calc_score_at (cfg : Config) (df : List Lead) (wm : String) (ad : ℤ) :
    ScoringResult :=
  let wdf := windowLeads df wm ad
  if wdf = [] then
    { webmaster := wm, analysis_date := ad, cohorts := []
      numerator := 0, denominator := 0, score := 0, score_pct := 0 }
  else
    let days := sortedDedupDates wdf
    let cohorts := days.map (mkCohort cfg ad wdf)
    let numerator := (days.map (fun d => wActual cfg (dayGroup wdf d))).sum
    let denominator := (days.map (fun d => wBenchmark cfg ad d (dayGroup wdf d))).sum
    let score := if denominator ≠ 0 then pyRound (numerator / denominator) 4 else 0
    { webmaster := wm
      analysis_date := ad
      cohorts := cohorts
      numerator := pyRound numerator 2
      denominator := pyRound denominator 2
      score := score
      score_pct := pyRound (score * 100) 2 }

/-- The resolved analysis date: the argument when given, else
`max(df["date"])`, which is absent exactly when the lead set is empty. -/
def effective_analysis_date (df : List Lead) (ad? : Option ℤ) : Option ℤ :=
  match ad? with
  | some ad => some ad
  | none => (df.map (fun l => l.date)).max?

/-- `scoring.calc_score`: `analysis_date = max(df["date"])` when the argument
is `None`, where Python's `max` raises `ValueError` on an empty sequence. -/
def calc_score (cfg : Config) (df : List Lead) (wm : String) (ad? : Option ℤ) :
    Except String ScoringResult :=
  match effective_analysis_date df ad? with
  | some ad => .ok (calc_score_at cfg df wm ad)
  | none => .error "ValueError: max() arg is an empty sequence"

/-! ### Adjusted buyout (`scoring.calc_adjusted_buyout`) -/

/-- The webmaster's leads inside the adjusted-buyout period:
`df[(df["webmaster"] == webmaster) & (df["date"] >= since)]` with
`since = analysis_date - period_days`. -/
def adjWindow (df : List Lead) (wm : String) (ad period_days : ℤ) : List Lead :=
  df.filter (fun l => decide (l.webmaster = wm) && decide (ad - period_days ≤ l.date))

/-- The cohort loop of `calc_adjusted_buyout`: accumulate
`(total_approved, total_weighted)` over the day groups, skipping cohorts with
no approved leads. -/
def adjLoop (cfg : Config) (ad : ℤ) (wdf : List Lead) : List ℤ → ℕ × ℚ
  | [] => (0, 0)
  | d :: ds =>
    let rest := adjLoop cfg ad wdf ds
    let g := dayGroup wdf d
    let age := ageOf ad d
    let approved := approvedOf cfg g
    if approved = 0 then rest
    else
      let actual_rate := (boughtOf cfg g : ℚ) / approved
      let adjusted_rate :=
        if (SCORING_WINDOW_DAYS : ℤ) ≤ age then actual_rate
        else min (actual_rate * ((65/100) / cfg.benchmark age.toNat)) 1
      (rest.1 + approved, rest.2 + approved * adjusted_rate)

/-- `scoring.calc_adjusted_buyout` with the analysis date already resolved
(the source defaults it to `datetime.date.today()`, an external input). -/
def calc_adjusted_buyout (cfg : Config) (df : List Lead) (wm : String)
    (ad : ℤ) (period_days : ℤ) : ℚ :=
  let wdf := adjWindow df wm ad period_days
  if wdf = [] then 0
  else
    let acc := adjLoop cfg ad wdf (sortedDedupDates wdf)
    if acc.1 = 0 then 0
    else pyRound (acc.2 / (acc.1 : ℚ) * 100) 2

/-! ### Issue detection (`src/app/crud.py`, `detect_issues`) -/

/-- The four flags `crud.detect_issues` can emit, each carrying the percentage
interpolated into its message string (the Russian message text is
presentation only). -/
inductive Issue where
  | highTrash (pct : ℚ)
  | lowApprove (pct : ℚ)
  | lowBuyout (pct : ℚ)
  | weakScore (pct : ℚ)
deriving DecidableEq, Repr

/-- `crud.detect_issues`: fixed strict thresholds, evaluated in a fixed
order; the score check only fires when a score is present. -/
def detect_issues (approve_pct buyout_pct trash_pct : ℚ)
    (score_pct : Option ℚ) : List Issue :=
  (if trash_pct > 20 then [Issue.highTrash trash_pct] else []) ++
  (if approve_pct < 30 then [Issue.lowApprove approve_pct] else []) ++
  (if buyout_pct < 65 then [Issue.lowBuyout buyout_pct] else []) ++
  (match score_pct with
   | some s => if s < 70 then [Issue.weakScore s] else []
   | none => [])

/-- Position of each flag in the fixed emission order of `detect_issues`. -/
def issueRank : Issue → ℕ
  | .highTrash _ => 0
  | .lowApprove _ => 1
  | .lowBuyout _ => 2
  | .weakScore _ => 3

/-! ### Orchestrator (`src/app/analysis.py`) -/

/-- `analysis._compute_averages`: unweighted means of the per-webmaster
approve and trash percentages, rounded to 2 decimals. -/
def _compute_averages (cfg : Config) (df : List Lead)
    (webmasters : List String) : ℚ × ℚ :=
  let approves := webmasters.map
    (fun wm => (calc_webmaster_metrics cfg df wm).approve_pct)
  let trashes := webmasters.map
    (fun wm => (calc_webmaster_metrics cfg df wm).trash_pct)
  let avg_approve := if approves ≠ [] then approves.sum / approves.length else 0
  let avg_trash := if trashes ≠ [] then trashes.sum / trashes.length else 0
  (pyRound avg_approve 2, pyRound avg_trash 2)

/-- `df["webmaster"].unique().tolist()`: distinct values in order of first
appearance. -/
def uniqueFirst : List String → List String
  | [] => []
  | x :: xs => x :: uniqueFirst (xs.filter (fun y => decide (y ≠ x)))
termination_by l => l.length
decreasing_by
  simp only [List.length_cons]
  exact Nat.lt_succ_of_le (List.length_filter_le _ _)

/-- The parameter names of `crud.detect_issues`, in signature order
(`src/app/crud.py:147`). None has a default value. -/
def detect_issues_param_names : List String :=
  ["approve_pct", "buyout_pct", "trash_pct", "score_pct"]

/-- The keyword names used at the `detect_issues(...)` call site inside
`analysis.analyse_all` (`src/app/analysis.py:62`). -/
def analyse_all_call_keywords : List String :=
  ["approve_pct", "adj_buyout_pct", "trash_pct", "score_pct",
   "avg_approve_pct", "avg_trash_pct"]

/-- Python keyword binding for a call that passes keywords only: it succeeds
exactly when every keyword names a parameter and every parameter without a
default receives a keyword; otherwise the call raises `TypeError`. -/
def kwCallBinds (param_names keywords : List String) : Bool :=
  keywords.all (fun k => decide (k ∈ param_names)) &&
  param_names.all (fun p => decide (p ∈ keywords))

/-- One report record of `analysis.analyse_all`. -/
structure Report where
  webmaster : String
  period_days : ℤ
  leads_total : ℕ
  approved : ℕ
  bought_out : ℕ
  trash : ℕ
  approve_pct : ℚ
  buyout_pct : ℚ
  adj_buyout_pct : ℚ
  trash_pct : ℚ
  score_pct : Option ℚ
  avg_approve_pct : ℚ
  avg_trash_pct : ℚ
  issues : List Issue
  ok : Bool
deriving DecidableEq, Repr

/-- Error-propagating map, the behaviour of a Python loop whose body can
raise. -/
def mapEx (f : α → Except String β) : List α → Except String (List β)
  | [] => .ok []
  | x :: xs =>
    match f x with
    | .error e => .error e
    | .ok b =>
      match mapEx f xs with
      | .error e => .error e
      | .ok bs => .ok (b :: bs)

/-- The body of the per-webmaster loop of `analysis.analyse_all`. The
`detect_issues(...)` call passes the keyword set of
`analyse_all_call_keywords`; Python binds them against
`detect_issues_param_names` and raises `TypeError` when they do not fit. -/
def analyse_one (cfg : Config) (df : List Lead) (avg_approve avg_trash : ℚ)
    (today period_days : ℤ) (wm : String) : Except String Report :=
  let m := calc_webmaster_metrics cfg df wm
  let adj_buyout_pct := calc_adjusted_buyout cfg df wm today period_days
  let since_score := today - 8
  let df_score := df.filter
    (fun l => decide (l.webmaster = wm) && decide (since_score ≤ l.date))
  let score_pct : Option ℚ :=
    if df_score = [] then none
    else some (calc_score_at cfg df_score wm today).score_pct
  if kwCallBinds detect_issues_param_names analyse_all_call_keywords then
    let issues := detect_issues m.approve_pct adj_buyout_pct m.trash_pct score_pct
    .ok
      { webmaster := wm
        period_days := period_days
        leads_total := m.total
        approved := m.approved
        bought_out := m.bought_out
        trash := m.trash
        approve_pct := m.approve_pct
        buyout_pct := m.buyout_pct
        adj_buyout_pct := adj_buyout_pct
        trash_pct := m.trash_pct
        score_pct := score_pct
        avg_approve_pct := avg_approve
        avg_trash_pct := avg_trash
        issues := issues
        ok := issues.isEmpty }
  else
    .error "TypeError: detect_issues() got an unexpected keyword argument"

/-- `analysis.analyse_all` with the resolved analysis date passed as `today`
(the source computes `today = analysis_date or datetime.date.today()`). -/
def analyse_all (cfg : Config) (df : List Lead) (period_days today : ℤ) :
    Except String (List Report) :=
  if df = [] then .ok []
  else
    let webmasters := uniqueFirst (df.map (fun l => l.webmaster))
    let avgs := _compute_averages cfg df webmasters
    mapEx (analyse_one cfg df avgs.1 avgs.2 today period_days) webmasters

/-! ### Daily breakdown (`metrics.daily_breakdown`) -/

/-- One row of `metrics.daily_breakdown`. -/
structure DayRow where
  date : ℤ
  leads : ℕ
  approved : ℕ
  bought_out : ℕ
  trash : ℕ
  approve_pct : ℚ
  buyout_pct : ℚ
  trash_pct : ℚ
deriving DecidableEq, Repr

/-- One iteration of the per-day loop of `daily_breakdown`. -/
def mkDayRow (cfg : Config) (wdf : List Lead) (d : ℤ) : DayRow :=
  let g := dayGroup wdf d
  let total := g.length
  let approved := approvedOf cfg g
  let bought_out := boughtOf cfg g
  let trash := countStatus cfg.trashStatuses g
  { date := d
    leads := total
    approved := approved
    bought_out := bought_out
    trash := trash
    approve_pct := _pct approved total
    buyout_pct := _pct bought_out approved
    trash_pct := _pct trash total }

/-- The row-building part of `daily_breakdown`, after the analysis date has
been resolved. The trailing `pd.DataFrame(rows).sort_values("date")` raises
`KeyError` when `rows` is empty, because an empty DataFrame has no columns. -/
def daily_breakdown_rows (cfg : Config) (df : List Lead) (wm : String) :
    Except String (List DayRow) :=
  let wdf := df.filter (fun l => decide (l.webmaster = wm))
  let rows := (sortedDedupDates wdf).map (mkDayRow cfg wdf)
  if rows = [] then .error "KeyError: date" else .ok rows

/-- `metrics.daily_breakdown`: resolves `analysis_date = max(df["date"])`
first when the argument is `None` (raising `ValueError` on an empty lead
set), then builds the per-day rows; the resolved date is not used by the
row computation. -/
def daily_breakdown (cfg : Config) (df : List Lead) (wm : String)
    (ad? : Option ℤ) : Except String (List DayRow) :=
  match effective_analysis_date df ad? with
  | none => .error "ValueError: max() arg is an empty sequence"
  | some _ => daily_breakdown_rows cfg df wm

/-! ### Basic lemmas about rounding, percentages and counting -/

theorem pyRoundInt_nonneg {q : ℚ} (h : 0 ≤ q) : 0 ≤ pyRoundInt q := by
  have hf : 0 ≤ ⌊q⌋ := Int.floor_nonneg.mpr h
  rw [pyRoundInt_eq]
  split_ifs <;> omega

theorem pyRoundInt_le {q : ℚ} {B : ℤ} (h : q ≤ (B : ℚ)) : pyRoundInt q ≤ B := by
  have hfB : ⌊q⌋ ≤ B := by
    have h1 := Int.floor_le_floor h
    rwa [Int.floor_intCast] at h1
  have hfle : (⌊q⌋ : ℚ) ≤ q := Int.floor_le q
  rw [pyRoundInt_eq]
  split_ifs with h1 h2 h3
  · exact hfB
  · have hlt : (⌊q⌋ : ℚ) < q := by linarith
    have : (⌊q⌋ : ℚ) < (B : ℚ) := lt_of_lt_of_le hlt h
    have : ⌊q⌋ < B := by exact_mod_cast this
    omega
  · exact hfB
  · have hlt : (⌊q⌋ : ℚ) < q := by
      have hge : (1 : ℚ)/2 ≤ q - ⌊q⌋ := le_of_not_lt h1
      linarith
    have : (⌊q⌋ : ℚ) < (B : ℚ) := lt_of_lt_of_le hlt h
    have : ⌊q⌋ < B := by exact_mod_cast this
    omega

theorem pyRoundInt_intCast (z : ℤ) : pyRoundInt (z : ℚ) = z := by
  rw [pyRoundInt_eq, Int.floor_intCast]
  norm_num

theorem pyRound_nonneg {q : ℚ} (h : 0 ≤ q) (n : ℕ) : 0 ≤ pyRound q n := by
  unfold pyRound
  have h1 : (0 : ℚ) ≤ q * 10 ^ n := by positivity
  have h2 : (0 : ℤ) ≤ pyRoundInt (q * 10 ^ n) := pyRoundInt_nonneg h1
  have h3 : (0 : ℚ) ≤ (pyRoundInt (q * 10 ^ n) : ℚ) := by exact_mod_cast h2
  positivity

theorem pyRound_le_intCast {q : ℚ} {B : ℤ} (h : q ≤ (B : ℚ)) (n : ℕ) :
    pyRound q n ≤ B := by
  unfold pyRound
  have hpow : (0 : ℚ) < 10 ^ n := by positivity
  have h1 : q * 10 ^ n ≤ ((B * 10 ^ n : ℤ) : ℚ) := by
    push_cast
    exact mul_le_mul_of_nonneg_right h (le_of_lt hpow)
  have h2 : pyRoundInt (q * 10 ^ n) ≤ B * 10 ^ n := pyRoundInt_le h1
  rw [div_le_iff₀ hpow]
  calc (pyRoundInt (q * 10 ^ n) : ℚ) ≤ ((B * 10 ^ n : ℤ) : ℚ) := by exact_mod_cast h2
    _ = (B : ℚ) * 10 ^ n := by push_cast; ring

theorem pyRound_intCast (z : ℤ) (n : ℕ) : pyRound (z : ℚ) n = z := by
  unfold pyRound
  have h1 : (z : ℚ) * 10 ^ n = ((z * 10 ^ n : ℤ) : ℚ) := by push_cast; ring
  rw [h1, pyRoundInt_intCast]
  have hpow : (10 : ℚ) ^ n ≠ 0 := by positivity
  push_cast
  field_simp

theorem pyRound_zero (n : ℕ) : pyRound 0 n = 0 := by
  have h := pyRound_intCast 0 n
  simpa using h

theorem pyRound_natCast (k : ℕ) (n : ℕ) : pyRound (k : ℚ) n = k := by
  have h := pyRound_intCast (k : ℤ) n
  push_cast at h
  exact h

theorem _pct_nonneg (n d : ℕ) : 0 ≤ _pct n d := by
  unfold _pct
  split_ifs with h
  · exact pyRound_nonneg (by positivity) 2
  · exact le_refl 0

theorem _pct_le_100 {n d : ℕ} (h : n ≤ d) : _pct n d ≤ 100 := by
  unfold _pct
  split_ifs with hd
  · have hd' : (0 : ℚ) < d := by positivity
    have hq : (n : ℚ) / d * 100 ≤ ((100 : ℤ) : ℚ) := by
      have hnd : (n : ℚ) ≤ (d : ℚ) := by exact_mod_cast h
      have : (n : ℚ) / d ≤ 1 := by
        rw [div_le_one hd']
        exact hnd
      push_cast
      nlinarith
    have := pyRound_le_intCast hq 2
    exact_mod_cast this
  · norm_num

theorem countStatus_le_length (s : List ℤ) (l : List Lead) :
    countStatus s l ≤ l.length :=
  List.countP_le_length _

theorem countStatus_mono_set {s₁ s₂ : List ℤ} (hs : ∀ x ∈ s₁, x ∈ s₂)
    (l : List Lead) : countStatus s₁ l ≤ countStatus s₂ l := by
  unfold countStatus
  refine List.countP_mono_left ?_
  intro x _ hx
  simp only [decide_eq_true_eq] at hx ⊢
  exact hs _ hx

theorem countStatus_sublist {l₁ l₂ : List Lead} (h : l₁.Sublist l₂)
    (s : List ℤ) : countStatus s l₁ ≤ countStatus s l₂ :=
  List.Sublist.countP_le _ h

theorem mem_sortedDedupDates {l : List Lead} {d : ℤ} :
    d ∈ sortedDedupDates l ↔ d ∈ l.map (fun x => x.date) := by
  unfold sortedDedupDates
  rw [List.Perm.mem_iff (List.perm_insertionSort _ _), List.mem_dedup]

theorem sortedDedupDates_pairwise_lt (l : List Lead) :
    (sortedDedupDates l).Pairwise (· < ·) := by
  have hs : (sortedDedupDates l).Pairwise (· ≤ ·) :=
    List.sorted_insertionSort _ _
  have hn : (sortedDedupDates l).Nodup :=
    (List.perm_insertionSort _ _).nodup_iff.mpr (List.nodup_dedup _)
  exact (hs.and hn).imp (fun h => lt_of_le_of_ne h.1 h.2)

theorem sortedDedupDates_ne_nil {l : List Lead} (h : l ≠ []) :
    sortedDedupDates l ≠ [] := by
  cases l with
  | nil => exact absurd rfl h
  | cons x xs =>
    intro hc
    have hm : x.date ∈ sortedDedupDates (x :: xs) := by
      rw [mem_sortedDedupDates]
      simp
    rw [hc] at hm
    simp at hm

theorem dayGroup_sublist (l : List Lead) (d : ℤ) : (dayGroup l d).Sublist l :=
  List.filter_sublist _

/-! ### Claim theorems -/

/-- C7: the benchmark-curve lookup clamps its argument to the window [1, 8]:
nonpositive ages resolve to the day-1 benchmark, ages at least 8 to the
day-8 benchmark, and ages within 1..8 to the curve value at that age. -/
theorem benchmark_lookup_clamps (cfg : Config) (age_days : ℤ) :
    (age_days ≤ 0 → _benchmark_for_age cfg age_days = cfg.benchmark 1) ∧
    (8 ≤ age_days → _benchmark_for_age cfg age_days = cfg.benchmark 8) ∧
    (1 ≤ age_days → age_days ≤ 8 →
      _benchmark_for_age cfg age_days = cfg.benchmark age_days.toNat) := by
  refine ⟨?_, ?_, ?_⟩ <;> intro h <;>
    try intro h2
  all_goals
    show cfg.benchmark (max 1 (min age_days ((SCORING_WINDOW_DAYS : ℕ) : ℤ))).toNat =
      _
  all_goals unfold SCORING_WINDOW_DAYS
  all_goals congr 1
  all_goals omega

/-- Witness for C7 at concrete ages -3 (clamped to day 1), 12 (clamped to
day 8) and 5 (inside the window). -/
theorem benchmark_lookup_clamps_witness :
    _benchmark_for_age cfgEx (-3) = cfgEx.benchmark 1 ∧
    _benchmark_for_age cfgEx 12 = cfgEx.benchmark 8 ∧
    _benchmark_for_age cfgEx 5 = cfgEx.benchmark 5 :=
  ⟨(benchmark_lookup_clamps cfgEx (-3)).1 (by norm_num),
   (benchmark_lookup_clamps cfgEx 12).2.1 (by norm_num),
   by
     have h := (benchmark_lookup_clamps cfgEx 5).2.2 (by norm_num) (by norm_num)
     simpa using h⟩

theorem detect_issues_length_le (a b t : ℚ) (s? : Option ℚ) :
    (detect_issues a b t s?).length ≤ 4 := by
  unfold detect_issues
  cases s? <;> dsimp only <;> split_ifs <;> simp

theorem detect_issues_ordered (a b t : ℚ) (s? : Option ℚ) :
    (detect_issues a b t s?).Pairwise (fun x y => issueRank x < issueRank y) := by
  unfold detect_issues
  cases s? <;> dsimp only <;> split_ifs <;> simp [issueRank]

theorem detect_issues_highTrash_iff (a b t : ℚ) (s? : Option ℚ) :
    Issue.highTrash t ∈ detect_issues a b t s? ↔ 20 < t := by
  unfold detect_issues
  cases s? <;> dsimp only <;> split_ifs <;> simp_all

theorem detect_issues_lowApprove_iff (a b t : ℚ) (s? : Option ℚ) :
    Issue.lowApprove a ∈ detect_issues a b t s? ↔ a < 30 := by
  unfold detect_issues
  cases s? <;> dsimp only <;> split_ifs <;> simp_all

theorem detect_issues_lowBuyout_iff (a b t : ℚ) (s? : Option ℚ) :
    Issue.lowBuyout b ∈ detect_issues a b t s? ↔ b < 65 := by
  unfold detect_issues
  cases s? <;> dsimp only <;> split_ifs <;> simp_all

theorem detect_issues_weakScore_iff (a b t v : ℚ) :
    Issue.weakScore v ∈ detect_issues a b t (some v) ↔ v < 70 := by
  unfold detect_issues
  dsimp only
  split_ifs <;> simp_all

theorem detect_issues_no_score_no_flag (a b t w : ℚ) :
    Issue.weakScore w ∉ detect_issues a b t none := by
  unfold detect_issues
  dsimp only
  split_ifs <;> simp_all

/-- C6: `detect_issues` flags exactly under the strict comparisons
`trash_pct > 20`, `approve_pct < 30`, `buyout_pct < 65` and, only when a
score is present, `score_pct < 70`; the flags come in that fixed order and
there are at most four; boundary inputs 20/30/65/70 produce no flag. -/
theorem detect_issues_strict_thresholds :
    (∀ (a b t : ℚ) (s? : Option ℚ),
        (detect_issues a b t s?).length ≤ 4 ∧
        (detect_issues a b t s?).Pairwise (fun x y => issueRank x < issueRank y) ∧
        (Issue.highTrash t ∈ detect_issues a b t s? ↔ 20 < t) ∧
        (Issue.lowApprove a ∈ detect_issues a b t s? ↔ a < 30) ∧
        (Issue.lowBuyout b ∈ detect_issues a b t s? ↔ b < 65) ∧
        (∀ v : ℚ, Issue.weakScore v ∈ detect_issues a b t (some v) ↔ v < 70) ∧
        (∀ w : ℚ, Issue.weakScore w ∉ detect_issues a b t none)) ∧
    detect_issues 30 65 20 (some 70) = [] ∧
    detect_issues (2999/100) (6499/100) (2001/100) (some (6999/100)) =
      [Issue.highTrash (2001/100), Issue.lowApprove (2999/100),
       Issue.lowBuyout (6499/100), Issue.weakScore (6999/100)] := by
  refine ⟨?_, ?_, ?_⟩
  · intro a b t s?
    exact ⟨detect_issues_length_le a b t s?,
      detect_issues_ordered a b t s?,
      detect_issues_highTrash_iff a b t s?,
      detect_issues_lowApprove_iff a b t s?,
      detect_issues_lowBuyout_iff a b t s?,
      fun v => detect_issues_weakScore_iff a b t v,
      fun w => detect_issues_no_score_no_flag a b t w⟩
  · norm_num [detect_issues]
  · norm_num [detect_issues]

theorem calc_webmaster_metrics_approve_pct (cfg : Config) (df : List Lead)
    (wm : String) :
    (calc_webmaster_metrics cfg df wm).approve_pct =
      _pct (calc_webmaster_metrics cfg df wm).approved
        (calc_webmaster_metrics cfg df wm).total := rfl

theorem calc_webmaster_metrics_trash_pct (cfg : Config) (df : List Lead)
    (wm : String) :
    (calc_webmaster_metrics cfg df wm).trash_pct =
      _pct (calc_webmaster_metrics cfg df wm).trash
        (calc_webmaster_metrics cfg df wm).total := rfl

/-- C4: the buyout percentage equals `round(bought_out / approved * 100, 2)`
— the denominator is the approved count, never the total — and is 0.0 when
`approved = 0`; likewise `approve_pct` and `trash_pct` are 0.0 when
`total = 0`. Everything is a total rational, never NaN or infinite. -/
theorem buyout_pct_relative_to_approved (cfg : Config) (df : List Lead)
    (wm : String) :
    ((calc_webmaster_metrics cfg df wm).approved ≠ 0 →
      (calc_webmaster_metrics cfg df wm).buyout_pct =
        pyRound (((calc_webmaster_metrics cfg df wm).bought_out : ℚ) /
          ((calc_webmaster_metrics cfg df wm).approved : ℚ) * 100) 2) ∧
    ((calc_webmaster_metrics cfg df wm).approved = 0 →
      (calc_webmaster_metrics cfg df wm).buyout_pct = 0) ∧
    ((calc_webmaster_metrics cfg df wm).total = 0 →
      (calc_webmaster_metrics cfg df wm).approve_pct = 0 ∧
      (calc_webmaster_metrics cfg df wm).trash_pct = 0) := by
  refine ⟨?_, ?_, ?_⟩
  · intro h
    rw [calc_webmaster_metrics_buyout_pct]
    unfold _pct
    rw [if_pos h]
  · intro h
    rw [calc_webmaster_metrics_buyout_pct]
    unfold _pct
    rw [h]
    simp
  · intro h
    rw [calc_webmaster_metrics_approve_pct, calc_webmaster_metrics_trash_pct, h]
    unfold _pct
    simp

/-- Concrete witness leads: webmaster A has one approved, one bought-out
(also approved) and one trash lead, so `approved = 2 ≠ total = 3`;
webmaster B has one approved lead. -/
def dfW : List Lead :=
  [⟨1, 1, 0, "A", 0⟩, ⟨2, 2, 0, "A", 0⟩, ⟨3, 3, 0, "A", 0⟩, ⟨4, 1, 0, "B", 0⟩]

/-- Witness for C4: applies the theorem at `dfW` (where approved ≠ total)
and at the empty lead set. -/
theorem buyout_pct_relative_to_approved_witness :
    ((calc_webmaster_metrics cfgEx dfW "A").approved ≠ 0 ∧
      (calc_webmaster_metrics cfgEx dfW "A").buyout_pct =
        pyRound (((calc_webmaster_metrics cfgEx dfW "A").bought_out : ℚ) /
          ((calc_webmaster_metrics cfgEx dfW "A").approved : ℚ) * 100) 2) ∧
    ((calc_webmaster_metrics cfgEx [] "A").total = 0 ∧
      (calc_webmaster_metrics cfgEx [] "A").approve_pct = 0 ∧
      (calc_webmaster_metrics cfgEx [] "A").trash_pct = 0) :=
  ⟨⟨by decide, (buyout_pct_relative_to_approved cfgEx dfW "A").1 (by decide)⟩,
   ⟨by decide,
    ((buyout_pct_relative_to_approved cfgEx [] "A").2.2 (by decide)).1,
    ((buyout_pct_relative_to_approved cfgEx [] "A").2.2 (by decide)).2⟩⟩

/-- C9: the population averages of the orchestrator are the unweighted
arithmetic means of each webmaster's own approve / trash percentage,
rounded to 2 decimals — each webmaster counts once, regardless of its lead
count. -/
theorem compute_averages_unweighted (cfg : Config) (df : List Lead)
    (webmasters : List String) (h : webmasters ≠ []) :
    _compute_averages cfg df webmasters =
      (pyRound ((webmasters.map
          (fun wm => (calc_webmaster_metrics cfg df wm).approve_pct)).sum /
          (webmasters.length : ℚ)) 2,
       pyRound ((webmasters.map
          (fun wm => (calc_webmaster_metrics cfg df wm).trash_pct)).sum /
          (webmasters.length : ℚ)) 2) := by
  have hA : webmasters.map
      (fun wm => (calc_webmaster_metrics cfg df wm).approve_pct) ≠ [] := by
    simpa using h
  have hT : webmasters.map
      (fun wm => (calc_webmaster_metrics cfg df wm).trash_pct) ≠ [] := by
    simpa using h
  unfold _compute_averages
  dsimp only
  rw [if_pos hA, if_pos hT]
  simp

/-- Witness leads for C9: webmaster A has 5 leads with 2 approved (40%) and
3 trash (60%); webmaster B has 10 leads with 6 approved (60%) and 4 trash
(40%). Lead counts differ, yet each webmaster weighs equally. -/
def dfAvg : List Lead :=
  [⟨1, 1, 0, "A", 0⟩, ⟨2, 1, 0, "A", 0⟩, ⟨3, 3, 0, "A", 0⟩,
   ⟨4, 3, 0, "A", 0⟩, ⟨5, 3, 0, "A", 0⟩,
   ⟨6, 1, 0, "B", 0⟩, ⟨7, 1, 0, "B", 0⟩, ⟨8, 1, 0, "B", 0⟩,
   ⟨9, 1, 0, "B", 0⟩, ⟨10, 1, 0, "B", 0⟩, ⟨11, 1, 0, "B", 0⟩,
   ⟨12, 3, 0, "B", 0⟩, ⟨13, 3, 0, "B", 0⟩, ⟨14, 3, 0, "B", 0⟩,
   ⟨15, 3, 0, "B", 0⟩]

/-- Witness for C9: approve percentages 40 and 60 with unequal lead counts
average to exactly 50. -/
theorem compute_averages_unweighted_witness :
    _compute_averages cfgEx dfAvg ["A", "B"] = (50, 50) := by
  rw [compute_averages_unweighted cfgEx dfAvg ["A", "B"] (by simp)]
  have hA : (calc_webmaster_metrics cfgEx dfAvg "A").approve_pct = 40 := by
    rw [calc_webmaster_metrics_approve_pct,
      show (calc_webmaster_metrics cfgEx dfAvg "A").approved = 2 from by decide,
      show (calc_webmaster_metrics cfgEx dfAvg "A").total = 5 from by decide]
    norm_num [_pct, pyRound, pyRoundInt_eq, Int.floor_eq_iff]
  have hB : (calc_webmaster_metrics cfgEx dfAvg "B").approve_pct = 60 := by
    rw [calc_webmaster_metrics_approve_pct,
      show (calc_webmaster_metrics cfgEx dfAvg "B").approved = 6 from by decide,
      show (calc_webmaster_metrics cfgEx dfAvg "B").total = 10 from by decide]
    norm_num [_pct, pyRound, pyRoundInt_eq, Int.floor_eq_iff]
  have tA : (calc_webmaster_metrics cfgEx dfAvg "A").trash_pct = 60 := by
    rw [calc_webmaster_metrics_trash_pct,
      show (calc_webmaster_metrics cfgEx dfAvg "A").trash = 3 from by decide,
      show (calc_webmaster_metrics cfgEx dfAvg "A").total = 5 from by decide]
    norm_num [_pct, pyRound, pyRoundInt_eq, Int.floor_eq_iff]
  have tB : (calc_webmaster_metrics cfgEx dfAvg "B").trash_pct = 40 := by
    rw [calc_webmaster_metrics_trash_pct,
      show (calc_webmaster_metrics cfgEx dfAvg "B").trash = 4 from by decide,
      show (calc_webmaster_metrics cfgEx dfAvg "B").total = 10 from by decide]
    norm_num [_pct, pyRound, pyRoundInt_eq, Int.floor_eq_iff]
  simp only [List.map_cons, List.map_nil, List.sum_cons, List.sum_nil,
    List.length_cons, List.length_nil, hA, hB, tA, tB]
  norm_num [pyRound, pyRoundInt_eq, Int.floor_eq_iff]

theorem analyse_one_raises (cfg : Config) (df : List Lead)
    (avg_approve avg_trash : ℚ) (today period_days : ℤ) (wm : String) :
    analyse_one cfg df avg_approve avg_trash today period_days wm =
      .error "TypeError: detect_issues() got an unexpected keyword argument" := by
  have h : kwCallBinds detect_issues_param_names analyse_all_call_keywords
      = false := by decide
  unfold analyse_one
  simp [h]

/-- C1 (code bug): `analyse_all` never emits a report for a non-empty lead
set — the `detect_issues(...)` call at `src/app/analysis.py:62` passes the
keywords `adj_buyout_pct`, `avg_approve_pct` and `avg_trash_pct`, none of
which is a parameter of `crud.detect_issues`, so Python raises `TypeError`
for the very first webmaster. -/
theorem analyse_all_raises_typeerror (cfg : Config) (df : List Lead)
    (period_days today : ℤ) (h : df ≠ []) :
    analyse_all cfg df period_days today =
      .error "TypeError: detect_issues() got an unexpected keyword argument" := by
  unfold analyse_all
  rw [if_neg h]
  cases df with
  | nil => exact absurd rfl h
  | cons x xs =>
    simp only [List.map_cons, uniqueFirst, mapEx, analyse_one_raises]

/-- Witness for C1: the failing call is reached on a concrete one-webmaster
lead set. -/
theorem analyse_all_raises_typeerror_witness :
    dfW ≠ [] ∧
    analyse_all cfgEx dfW 30 0 =
      .error "TypeError: detect_issues() got an unexpected keyword argument" :=
  ⟨by decide, analyse_all_raises_typeerror cfgEx dfW 30 0 (by decide)⟩

/-- Counterexample for C2: on the empty lead set with a defaulted analysis
date, `calc_score` raises `ValueError` from `max(df["date"])` instead of
returning a zero result; and on a window holding an (unapproved) lead, the
returned `ScoringResult` has a non-empty cohort list, not the empty one the
claim asserts for a window with no approved leads. -/
theorem calc_score_degenerate_counterexample :
    calc_score cfgEx [] "A" none =
      .error "ValueError: max() arg is an empty sequence" ∧
    calc_score cfgEx [⟨1, 3, 0, "A", 0⟩] "A" (some 0) =
      .ok (calc_score_at cfgEx [⟨1, 3, 0, "A", 0⟩] "A" 0) ∧
    (calc_score_at cfgEx [⟨1, 3, 0, "A", 0⟩] "A" 0).cohorts ≠ [] := by
  refine ⟨rfl, rfl, ?_⟩
  decide

theorem calc_score_at_empty_window (cfg : Config) (df : List Lead)
    (wm : String) (ad : ℤ) (h : windowLeads df wm ad = []) :
    calc_score_at cfg df wm ad =
      { webmaster := wm, analysis_date := ad, cohorts := []
        numerator := 0, denominator := 0, score := 0, score_pct := 0 } := by
  unfold calc_score_at
  rw [if_pos h]

theorem calc_score_at_nonempty_window (cfg : Config) (df : List Lead)
    (wm : String) (ad : ℤ) (h : windowLeads df wm ad ≠ []) :
    calc_score_at cfg df wm ad =
      { webmaster := wm
        analysis_date := ad
        cohorts := (sortedDedupDates (windowLeads df wm ad)).map
          (mkCohort cfg ad (windowLeads df wm ad))
        numerator := pyRound ((sortedDedupDates (windowLeads df wm ad)).map
          (fun d => wActual cfg (dayGroup (windowLeads df wm ad) d))).sum 2
        denominator := pyRound ((sortedDedupDates (windowLeads df wm ad)).map
          (fun d => wBenchmark cfg ad d (dayGroup (windowLeads df wm ad) d))).sum 2
        score :=
          if ((sortedDedupDates (windowLeads df wm ad)).map
              (fun d => wBenchmark cfg ad d (dayGroup (windowLeads df wm ad) d))).sum ≠ 0
          then pyRound (((sortedDedupDates (windowLeads df wm ad)).map
              (fun d => wActual cfg (dayGroup (windowLeads df wm ad) d))).sum /
            ((sortedDedupDates (windowLeads df wm ad)).map
              (fun d => wBenchmark cfg ad d (dayGroup (windowLeads df wm ad) d))).sum) 4
          else 0
        score_pct := pyRound
          ((if ((sortedDedupDates (windowLeads df wm ad)).map
              (fun d => wBenchmark cfg ad d (dayGroup (windowLeads df wm ad) d))).sum ≠ 0
            then pyRound (((sortedDedupDates (windowLeads df wm ad)).map
                (fun d => wActual cfg (dayGroup (windowLeads df wm ad) d))).sum /
              ((sortedDedupDates (windowLeads df wm ad)).map
                (fun d => wBenchmark cfg ad d (dayGroup (windowLeads df wm ad) d))).sum) 4
            else 0) * 100) 2 } := by
  unfold calc_score_at
  rw [if_neg h]

theorem adjLoop_all_skipped (cfg : Config) (ad : ℤ) (wdf : List Lead)
    (h : ∀ d, approvedOf cfg (dayGroup wdf d) = 0) :
    ∀ days, adjLoop cfg ad wdf days = (0, 0) := by
  intro days
  induction days with
  | nil => rfl
  | cons d ds ih =>
    unfold adjLoop
    simp [h d, ih]

/-- C2 (amended): with the analysis date given — or defaulted on a non-empty
lead set — the degenerate cases resolve to zero-valued, non-error results:
an empty scoring window gives the all-zero `ScoringResult` with empty
cohorts; a window with no approved leads gives all-zero numerics (though
its cohort rows are still listed); and `calc_adjusted_buyout` returns 0
whenever its window holds no approved leads. -/
theorem degenerate_inputs_zero_results (cfg : Config) (df : List Lead)
    (wm : String) (ad? : Option ℤ) (ad period_days : ℤ)
    (had : effective_analysis_date df ad? = some ad) :
    (windowLeads df wm ad = [] →
      calc_score cfg df wm ad? =
        .ok { webmaster := wm, analysis_date := ad, cohorts := []
              numerator := 0, denominator := 0, score := 0, score_pct := 0 }) ∧
    (approvedOf cfg (windowLeads df wm ad) = 0 →
      ∃ r, calc_score cfg df wm ad? = .ok r ∧
        r.numerator = 0 ∧ r.denominator = 0 ∧ r.score = 0 ∧ r.score_pct = 0) ∧
    (approvedOf cfg (adjWindow df wm ad period_days) = 0 →
      calc_adjusted_buyout cfg df wm ad period_days = 0) := by
  have hcs : calc_score cfg df wm ad? = .ok (calc_score_at cfg df wm ad) := by
    unfold calc_score
    rw [had]
  refine ⟨?_, ?_, ?_⟩
  · intro hw
    rw [hcs]
    unfold calc_score_at
    rw [if_pos hw]
  · intro hap
    rw [hcs]
    refine ⟨calc_score_at cfg df wm ad, rfl, ?_⟩
    have hgz : ∀ d, approvedOf cfg (dayGroup (windowLeads df wm ad) d) = 0 := by
      intro d
      have hle := countStatus_sublist
        (dayGroup_sublist (windowLeads df wm ad) d) cfg.approveStatuses
      unfold approvedOf at hap ⊢
      omega
    have hzA : ∀ d, wActual cfg (dayGroup (windowLeads df wm ad) d) = 0 := by
      intro d
      unfold wActual actualRateOf
      rw [hgz d]
      simp
    have hzB : ∀ d, wBenchmark cfg ad d (dayGroup (windowLeads df wm ad) d) = 0 := by
      intro d
      unfold wBenchmark
      rw [hgz d]
      simp
    by_cases hw : windowLeads df wm ad = []
    · rw [calc_score_at_empty_window cfg df wm ad hw]
      exact ⟨rfl, rfl, rfl, rfl⟩
    · rw [calc_score_at_nonempty_window cfg df wm ad hw]
      have hsA : ((sortedDedupDates (windowLeads df wm ad)).map
          (fun d => wActual cfg (dayGroup (windowLeads df wm ad) d))).sum = 0 := by
        refine List.sum_eq_zero ?_
        intro x hx
        obtain ⟨d, _, rfl⟩ := List.mem_map.mp hx
        exact hzA d
      have hsB : ((sortedDedupDates (windowLeads df wm ad)).map
          (fun d => wBenchmark cfg ad d (dayGroup (windowLeads df wm ad) d))).sum = 0 := by
        refine List.sum_eq_zero ?_
        intro x hx
        obtain ⟨d, _, rfl⟩ := List.mem_map.mp hx
        exact hzB d
      refine ⟨?_, ?_, ?_, ?_⟩ <;> simp [hsA, hsB, pyRound_zero]
  · intro hap
    have hgz : ∀ d, approvedOf cfg (dayGroup (adjWindow df wm ad period_days) d) = 0 := by
      intro d
      have hle := countStatus_sublist
        (dayGroup_sublist (adjWindow df wm ad period_days) d) cfg.approveStatuses
      unfold approvedOf at hap ⊢
      omega
    unfold calc_adjusted_buyout
    dsimp only
    rw [adjLoop_all_skipped cfg ad _ hgz]
    simp

/-- Witness for C2's amended statement: empty set with a given date, and a
window holding a single trash lead for the adjusted buyout. -/
theorem degenerate_inputs_zero_results_witness :
    calc_score cfgEx [] "A" (some 0) =
      .ok { webmaster := "A", analysis_date := 0, cohorts := []
            numerator := 0, denominator := 0, score := 0, score_pct := 0 } ∧
    calc_adjusted_buyout cfgEx [⟨1, 3, 0, "A", 0⟩] "A" 0 30 = 0 :=
  ⟨(degenerate_inputs_zero_results cfgEx [] "A" (some 0) 0 30 rfl).1 (by decide),
   (degenerate_inputs_zero_results cfgEx [⟨1, 3, 0, "A", 0⟩] "A" (some 0) 0 30
      rfl).2.2 (by decide)⟩

/-- Counterexample for C10: on the empty lead set, two calls differing only
in `analysis_date` do not behave identically — the defaulted call raises
`ValueError` from `max(df["date"])` while the dated call raises `KeyError`
from sorting an empty, column-less DataFrame. -/
theorem daily_breakdown_date_counterexample :
    daily_breakdown cfgEx [] "A" none ≠ daily_breakdown cfgEx [] "A" (some 0) := by
  have h1 : daily_breakdown cfgEx [] "A" none =
      .error "ValueError: max() arg is an empty sequence" := rfl
  have h2 : daily_breakdown cfgEx [] "A" (some 0) = .error "KeyError: date" := rfl
  rw [h1, h2]
  intro h
  exact absurd (Except.error.inj h) (by decide)

/-- C10 (amended): on a non-empty lead set, `daily_breakdown` does not
depend on its `analysis_date` argument (given or defaulted), and whenever
the webmaster has at least one lead it returns one row per distinct
creation date of that webmaster, sorted strictly ascending by date. -/
theorem daily_breakdown_ignores_analysis_date (cfg : Config) (df : List Lead)
    (wm : String) (a1 a2 : Option ℤ) (h : df ≠ []) :
    daily_breakdown cfg df wm a1 = daily_breakdown cfg df wm a2 ∧
    (df.filter (fun l => decide (l.webmaster = wm)) ≠ [] →
      ∃ rows, daily_breakdown cfg df wm a1 = .ok rows ∧
        rows.map (fun r => r.date) =
          sortedDedupDates (df.filter (fun l => decide (l.webmaster = wm))) ∧
        rows.Pairwise (fun r s => r.date < s.date)) := by
  have heff : ∀ a : Option ℤ, ∃ v, effective_analysis_date df a = some v := by
    intro a
    cases a with
    | some v => exact ⟨v, rfl⟩
    | none =>
      unfold effective_analysis_date
      cases hmax : (df.map (fun l => l.date)).max? with
      | some v => exact ⟨v, rfl⟩
      | none =>
        rw [List.max?_eq_none_iff] at hmax
        rw [List.map_eq_nil_iff] at hmax
        exact absurd hmax h
  have hrows : ∀ a : Option ℤ,
      daily_breakdown cfg df wm a = daily_breakdown_rows cfg df wm := by
    intro a
    obtain ⟨v, hv⟩ := heff a
    unfold daily_breakdown
    rw [hv]
  constructor
  · rw [hrows a1, hrows a2]
  · intro hwdf
    refine ⟨(sortedDedupDates (df.filter (fun l => decide (l.webmaster = wm)))).map
      (mkDayRow cfg (df.filter (fun l => decide (l.webmaster = wm)))), ?_, ?_, ?_⟩
    · rw [hrows a1]
      unfold daily_breakdown_rows
      rw [if_neg]
      simp only [ne_eq, List.map_eq_nil_iff]
      exact sortedDedupDates_ne_nil hwdf
    · rw [List.map_map]
      have : (fun r : DayRow => r.date) ∘
          mkDayRow cfg (df.filter (fun l => decide (l.webmaster = wm))) = id := by
        funext d
        rfl
      rw [this, List.map_id]
    · rw [List.pairwise_map]
      exact sortedDedupDates_pairwise_lt _

/-- C3: with at least one of the webmaster's leads inside the 8-day window,
`calc_score` returns a `ScoringResult` whose cohorts carry
`weighted_actual = round(approved * actual_rate, 2)` and
`weighted_benchmark = round(approved * benchmark_rate, 2)` (the benchmark
taken from the curve at the cohort's age), whose numerator and denominator
are the 2-decimal roundings of the sums of the unrounded contributions,
whose score is the 4-decimal rounding of their ratio (0 when the
denominator is 0), whose `score_pct` is `round(score * 100, 2)`, and whose
cohort list is strictly ascending by date. -/
theorem calc_score_weighted_formula (cfg : Config) (df : List Lead)
    (wm : String) (ad? : Option ℤ) (ad : ℤ)
    (had : effective_analysis_date df ad? = some ad)
    (hwin : windowLeads df wm ad ≠ []) :
    ∃ r, calc_score cfg df wm ad? = .ok r ∧
      r.cohorts.Pairwise (fun c c2 => c.date < c2.date) ∧
      (∀ c ∈ r.cohorts,
        c.weighted_actual = pyRound ((c.approved : ℚ) *
          (if c.approved ≠ 0 then (c.bought_out : ℚ) / (c.approved : ℚ) else 0)) 2 ∧
        c.weighted_benchmark = pyRound ((c.approved : ℚ) *
          _benchmark_for_age cfg c.age_days) 2) ∧
      r.numerator = pyRound (r.cohorts.map (fun c => (c.approved : ℚ) *
        (if c.approved ≠ 0 then (c.bought_out : ℚ) / (c.approved : ℚ) else 0))).sum 2 ∧
      r.denominator = pyRound (r.cohorts.map (fun c => (c.approved : ℚ) *
        _benchmark_for_age cfg c.age_days)).sum 2 ∧
      r.score = (if (r.cohorts.map (fun c => (c.approved : ℚ) *
          _benchmark_for_age cfg c.age_days)).sum ≠ 0
        then pyRound ((r.cohorts.map (fun c => (c.approved : ℚ) *
          (if c.approved ≠ 0 then (c.bought_out : ℚ) / (c.approved : ℚ) else 0))).sum /
          (r.cohorts.map (fun c => (c.approved : ℚ) *
          _benchmark_for_age cfg c.age_days)).sum) 4
        else 0) ∧
      r.score_pct = pyRound (r.score * 100) 2 := by
  have hmapA : ((sortedDedupDates (windowLeads df wm ad)).map
        (mkCohort cfg ad (windowLeads df wm ad))).map
        (fun c => (c.approved : ℚ) *
          (if c.approved ≠ 0 then (c.bought_out : ℚ) / (c.approved : ℚ) else 0)) =
      (sortedDedupDates (windowLeads df wm ad)).map
        (fun d => wActual cfg (dayGroup (windowLeads df wm ad) d)) := by
    rw [List.map_map]
    rfl
  have hmapB : ((sortedDedupDates (windowLeads df wm ad)).map
        (mkCohort cfg ad (windowLeads df wm ad))).map
        (fun c => (c.approved : ℚ) * _benchmark_for_age cfg c.age_days) =
      (sortedDedupDates (windowLeads df wm ad)).map
        (fun d => wBenchmark cfg ad d (dayGroup (windowLeads df wm ad) d)) := by
    rw [List.map_map]
    rfl
  refine ⟨calc_score_at cfg df wm ad, ?_, ?_, ?_, ?_, ?_, ?_, ?_⟩
  · unfold calc_score
    rw [had]
  · rw [calc_score_at_nonempty_window cfg df wm ad hwin]
    show (((sortedDedupDates (windowLeads df wm ad)).map
      (mkCohort cfg ad (windowLeads df wm ad))).Pairwise _)
    rw [List.pairwise_map]
    exact sortedDedupDates_pairwise_lt _
  · rw [calc_score_at_nonempty_window cfg df wm ad hwin]
    intro c hc
    show c.weighted_actual = _ ∧ c.weighted_benchmark = _
    obtain ⟨d, _, rfl⟩ := List.mem_map.mp hc
    exact ⟨rfl, rfl⟩
  · rw [calc_score_at_nonempty_window cfg df wm ad hwin]
    show pyRound _ 2 = pyRound _ 2
    rw [hmapA]
  · rw [calc_score_at_nonempty_window cfg df wm ad hwin]
    show pyRound _ 2 = pyRound _ 2
    rw [hmapB]
  · rw [calc_score_at_nonempty_window cfg df wm ad hwin]
    show (if _ ≠ (0:ℚ) then _ else (0:ℚ)) = _
    rw [hmapA, hmapB]
  · rw [calc_score_at_nonempty_window cfg df wm ad hwin]

/-- The spec's concrete scoring scenario: 10 leads of webmaster A created on
day 0 (age 1 at analysis date 1): 8 approved (statuses 1 and 2), of which 2
bought out (status 2), and 2 trash. -/
def dfScore : List Lead :=
  [⟨1, 1, 0, "A", 0⟩, ⟨2, 1, 0, "A", 0⟩, ⟨3, 1, 0, "A", 0⟩, ⟨4, 1, 0, "A", 0⟩,
   ⟨5, 1, 0, "A", 0⟩, ⟨6, 1, 0, "A", 0⟩, ⟨7, 2, 0, "A", 0⟩, ⟨8, 2, 0, "A", 0⟩,
   ⟨9, 3, 0, "A", 0⟩, ⟨10, 3, 0, "A", 0⟩]

/-- Witness for C3: on the spec's scenario (10 leads, 8 approved, 2 bought
out, day-1 benchmark 0.10) the single cohort carries `weighted_actual = 2.0`
and `weighted_benchmark = 0.8`, and the cohorts are ascending by date. -/
theorem calc_score_weighted_formula_witness :
    (calc_score_at cfgEx dfScore "A" 1).cohorts.map
      (fun c => c.weighted_actual) = [2] ∧
    (calc_score_at cfgEx dfScore "A" 1).cohorts.map
      (fun c => c.weighted_benchmark) = [4/5] ∧
    (calc_score_at cfgEx dfScore "A" 1).cohorts.Pairwise
      (fun c c2 => c.date < c2.date) := by
  obtain ⟨r, hok, hpw, _⟩ :=
    calc_score_weighted_formula cfgEx dfScore "A" (some 1) 1 rfl (by decide)
  have hr : r = calc_score_at cfgEx dfScore "A" 1 := by
    have h2 : calc_score cfgEx dfScore "A" (some 1) =
        .ok (calc_score_at cfgEx dfScore "A" 1) := rfl
    rw [h2] at hok
    exact (Except.ok.inj hok).symm
  have hco : (calc_score_at cfgEx dfScore "A" 1).cohorts =
      [mkCohort cfgEx 1 (windowLeads dfScore "A" 1) 0] := by
    rw [calc_score_at_nonempty_window cfgEx dfScore "A" 1 (by decide)]
    show (sortedDedupDates (windowLeads dfScore "A" 1)).map
      (mkCohort cfgEx 1 (windowLeads dfScore "A" 1)) = _
    rw [show sortedDedupDates (windowLeads dfScore "A" 1) = [0] from by decide]
    rfl
  have happ : approvedOf cfgEx (dayGroup (windowLeads dfScore "A" 1) 0) = 8 := by
    decide
  have hbou : boughtOf cfgEx (dayGroup (windowLeads dfScore "A" 1) 0) = 2 := by
    decide
  refine ⟨?_, ?_, ?_⟩
  · rw [hco]
    simp only [List.map_cons, List.map_nil]
    have : (mkCohort cfgEx 1 (windowLeads dfScore "A" 1) 0).weighted_actual = 2 := by
      show pyRound (wActual cfgEx (dayGroup (windowLeads dfScore "A" 1) 0)) 2 = 2
      unfold wActual actualRateOf
      rw [happ, hbou]
      norm_num [pyRound, pyRoundInt_eq, Int.floor_eq_iff]
    rw [this]
  · rw [hco]
    simp only [List.map_cons, List.map_nil]
    have : (mkCohort cfgEx 1 (windowLeads dfScore "A" 1) 0).weighted_benchmark
        = 4/5 := by
      show pyRound (wBenchmark cfgEx 1 0 (dayGroup (windowLeads dfScore "A" 1) 0)) 2
        = 4/5
      unfold wBenchmark
      rw [happ]
      rw [show _benchmark_for_age cfgEx (ageOf 1 0) = 1/10 from by
        norm_num [_benchmark_for_age, ageOf, SCORING_WINDOW_DAYS, cfgEx, benchEx]]
      norm_num [pyRound, pyRoundInt_eq, Int.floor_eq_iff]
    rw [this]
  · rw [← hr]
    exact hpw

/-- Spec-side definition (spec §4.3 wording): the adjusted rate of one
cohort — mature cohorts (age ≥ 8) keep their actual rate; young cohorts are
projected by `TARGET_MATURE_RATE / benchmark[age]` with the projection
capped at 1.0. -/
def spec_adjusted_rate (cfg : Config) (age_days : ℤ) (actual_rate : ℚ) : ℚ :=
  if 8 ≤ age_days then actual_rate
  else min (actual_rate * ((65/100) / cfg.benchmark age_days.toNat)) 1

/-- Spec-side definition (spec §4.3 wording): the adjusted buyout is the
approved-weighted average of the adjusted rates over the cohorts that have
at least one approved lead (cohorts with `approved = 0` are skipped), times
100, rounded to 2 decimals, and 0 when no approved leads exist in the
window. -/
def adjusted_buyout_spec (cfg : Config) (df : List Lead) (wm : String)
    (ad period_days : ℤ) : ℚ :=
  let wdf := adjWindow df wm ad period_days
  let cohorts := (sortedDedupDates wdf).map (fun d =>
    (approvedOf cfg (dayGroup wdf d),
     spec_adjusted_rate cfg (ageOf ad d) (actualRateOf cfg (dayGroup wdf d))))
  let contributing := cohorts.filter (fun p => decide (0 < p.1))
  let total_approved := (contributing.map (fun p => p.1)).sum
  if total_approved = 0 then 0
  else pyRound ((contributing.map (fun p => (p.1 : ℚ) * p.2)).sum /
    (total_approved : ℚ) * 100) 2

theorem adjLoop_eq_spec (cfg : Config) (ad : ℤ) (wdf : List Lead) :
    ∀ days : List ℤ,
      adjLoop cfg ad wdf days =
        ((((days.map (fun d =>
            (approvedOf cfg (dayGroup wdf d),
             spec_adjusted_rate cfg (ageOf ad d)
               (actualRateOf cfg (dayGroup wdf d))))).filter
            (fun p => decide (0 < p.1))).map (fun p => p.1)).sum,
         (((days.map (fun d =>
            (approvedOf cfg (dayGroup wdf d),
             spec_adjusted_rate cfg (ageOf ad d)
               (actualRateOf cfg (dayGroup wdf d))))).filter
            (fun p => decide (0 < p.1))).map (fun p => (p.1 : ℚ) * p.2)).sum) := by
  intro days
  induction days with
  | nil => rfl
  | cons d ds ih =>
    by_cases hap : approvedOf cfg (dayGroup wdf d) = 0
    · have hstep : adjLoop cfg ad wdf (d :: ds) = adjLoop cfg ad wdf ds := by
        simp only [adjLoop]
        rw [if_pos hap]
      rw [hstep, ih]
      have hflt : ¬ (0 < approvedOf cfg (dayGroup wdf d)) := by omega
      simp [hflt]
    · have hrate : actualRateOf cfg (dayGroup wdf d) =
          (boughtOf cfg (dayGroup wdf d) : ℚ) / (approvedOf cfg (dayGroup wdf d) : ℚ) := by
        unfold actualRateOf
        rw [if_pos hap]
      have hstep : adjLoop cfg ad wdf (d :: ds) =
          ((adjLoop cfg ad wdf ds).1 + approvedOf cfg (dayGroup wdf d),
           (adjLoop cfg ad wdf ds).2 + (approvedOf cfg (dayGroup wdf d) : ℚ) *
             spec_adjusted_rate cfg (ageOf ad d)
               (actualRateOf cfg (dayGroup wdf d))) := by
        simp only [adjLoop]
        rw [if_neg hap]
        unfold spec_adjusted_rate SCORING_WINDOW_DAYS
        rw [hrate]
        norm_cast
      rw [hstep, ih]
      have hflt : 0 < approvedOf cfg (dayGroup wdf d) := by omega
      simp only [List.map_cons, List.filter_cons, decide_eq_true_eq, hflt,
        if_true, List.map_cons, List.sum_cons, Prod.mk.injEq]
      constructor
      · omega
      · ring

/-- C5: `calc_adjusted_buyout` computes exactly the spec's formula — mature
cohorts (age ≥ 8) keep their actual rate; young cohorts use
`min(actual * (0.65 / benchmark[age]), 1.0)` so the projection is capped at
1.0; cohorts with no approved leads are skipped; and the result is the
approved-weighted average of the adjusted rates, times 100, rounded to 2
decimals. -/
theorem calc_adjusted_buyout_matches_spec (cfg : Config) (df : List Lead)
    (wm : String) (ad period_days : ℤ) :
    calc_adjusted_buyout cfg df wm ad period_days =
      adjusted_buyout_spec cfg df wm ad period_days ∧
    (∀ (age : ℤ) (actual : ℚ), 8 ≤ age →
      spec_adjusted_rate cfg age actual = actual) ∧
    (∀ (age : ℤ) (actual : ℚ), age < 8 →
      spec_adjusted_rate cfg age actual =
        min (actual * ((65/100) / cfg.benchmark age.toNat)) 1 ∧
      spec_adjusted_rate cfg age actual ≤ 1) := by
  refine ⟨?_, ?_, ?_⟩
  · unfold calc_adjusted_buyout adjusted_buyout_spec
    dsimp only
    rw [adjLoop_eq_spec]
    by_cases hw : adjWindow df wm ad period_days = []
    · rw [if_pos hw, hw]
      simp [sortedDedupDates]
    · rw [if_neg hw]
  · intro age actual h
    unfold spec_adjusted_rate
    rw [if_pos h]
  · intro age actual h
    unfold spec_adjusted_rate
    rw [if_neg (by omega)]
    exact ⟨rfl, min_le_right _ _⟩

/-- Witness leads for C5: webmaster A has two leads on day 0, both approved
and bought out, analysed at date 2 (age 2, young cohort): the projection
1.0 × (0.65 / 0.2) = 3.25 is capped at 1.0, so the adjusted buyout is
exactly 100%. -/
def dfAdj : List Lead :=
  [⟨1, 2, 0, "A", 0⟩, ⟨2, 2, 0, "A", 0⟩]

/-- Witness for C5: the code equals the spec formula on `dfAdj`; a mature
cohort keeps its rate; a young cohort's rate is capped at 1; and the capped
scenario yields exactly 100%. -/
theorem calc_adjusted_buyout_matches_spec_witness :
    calc_adjusted_buyout cfgEx dfAdj "A" 2 30 =
      adjusted_buyout_spec cfgEx dfAdj "A" 2 30 ∧
    spec_adjusted_rate cfgEx 9 (1/4) = 1/4 ∧
    spec_adjusted_rate cfgEx 3 (9/10) ≤ 1 ∧
    calc_adjusted_buyout cfgEx dfAdj "A" 2 30 = 100 := by
  obtain ⟨heq, hmature, hyoung⟩ :=
    calc_adjusted_buyout_matches_spec cfgEx dfAdj "A" 2 30
  refine ⟨heq, hmature 9 (1/4) (by norm_num),
    (hyoung 3 (9/10) (by norm_num)).2, ?_⟩
  have happ : approvedOf cfgEx (dayGroup (adjWindow dfAdj "A" 2 30) 0) = 2 := by
    decide
  have hbou : boughtOf cfgEx (dayGroup (adjWindow dfAdj "A" 2 30) 0) = 2 := by
    decide
  have hsd : sortedDedupDates (adjWindow dfAdj "A" 2 30) = [0] := by decide
  have hloop : adjLoop cfgEx 2 (adjWindow dfAdj "A" 2 30) [0] = (2, 2) := by
    show (if approvedOf cfgEx (dayGroup (adjWindow dfAdj "A" 2 30) 0) = 0 then
        adjLoop cfgEx 2 (adjWindow dfAdj "A" 2 30) []
      else
        ((adjLoop cfgEx 2 (adjWindow dfAdj "A" 2 30) []).1 +
          approvedOf cfgEx (dayGroup (adjWindow dfAdj "A" 2 30) 0),
         (adjLoop cfgEx 2 (adjWindow dfAdj "A" 2 30) []).2 +
          (approvedOf cfgEx (dayGroup (adjWindow dfAdj "A" 2 30) 0) : ℚ) *
            (if (SCORING_WINDOW_DAYS : ℤ) ≤ ageOf 2 0 then
              (boughtOf cfgEx (dayGroup (adjWindow dfAdj "A" 2 30) 0) : ℚ) /
                (approvedOf cfgEx (dayGroup (adjWindow dfAdj "A" 2 30) 0) : ℚ)
            else
              min ((boughtOf cfgEx (dayGroup (adjWindow dfAdj "A" 2 30) 0) : ℚ) /
                (approvedOf cfgEx (dayGroup (adjWindow dfAdj "A" 2 30) 0) : ℚ) *
                ((65/100) / cfgEx.benchmark (ageOf 2 0).toNat)) 1))) = (2, 2)
    rw [happ, hbou]
    rw [show adjLoop cfgEx 2 (adjWindow dfAdj "A" 2 30) [] = (0, 0) from rfl]
    rw [show ageOf 2 0 = 2 from by norm_num [ageOf]]
    norm_num [SCORING_WINDOW_DAYS, cfgEx, benchEx,
      show Int.toNat 2 = 2 from rfl]
  unfold calc_adjusted_buyout
  dsimp only
  rw [if_neg (by decide), hsd, hloop]
  norm_num [pyRound, pyRoundInt_eq, Int.floor_eq_iff]

/-- Witness for C10's amended statement at a concrete non-empty lead set. -/
theorem daily_breakdown_ignores_analysis_date_witness :
    dfW ≠ [] ∧
    daily_breakdown cfgEx dfW "A" none = daily_breakdown cfgEx dfW "A" (some 5) :=
  ⟨by decide,
   (daily_breakdown_ignores_analysis_date cfgEx dfW "A" none (some 5)
      (by decide)).1⟩

theorem ageOf_pos (ad d : ℤ) : 1 ≤ ageOf ad d := by
  unfold ageOf
  dsimp only
  split_ifs <;> omega

theorem actualRateOf_bounds (cfg : Config)
    (hsub : ∀ s ∈ cfg.buyoutStatuses, s ∈ cfg.approveStatuses) (g : List Lead) :
    0 ≤ actualRateOf cfg g ∧ actualRateOf cfg g ≤ 1 := by
  unfold actualRateOf
  split_ifs with h
  · have hle : boughtOf cfg g ≤ approvedOf cfg g := by
      unfold boughtOf approvedOf
      exact countStatus_mono_set hsub g
    have hpos : (0 : ℚ) < (approvedOf cfg g : ℚ) := by
      have h2 : 0 < approvedOf cfg g := Nat.pos_of_ne_zero h
      exact_mod_cast h2
    constructor
    · positivity
    · rw [div_le_one hpos]
      exact_mod_cast hle
  · norm_num

theorem spec_adjusted_rate_bounds (cfg : Config) (age : ℤ) (actual : ℚ)
    (hage : 1 ≤ age) (h0 : 0 ≤ actual) (h1 : actual ≤ 1)
    (hbench : ∀ n : ℕ, n ≤ 8 → 1 ≤ n → 0 < cfg.benchmark n) :
    0 ≤ spec_adjusted_rate cfg age actual ∧
    spec_adjusted_rate cfg age actual ≤ 1 := by
  unfold spec_adjusted_rate
  split_ifs with h
  · exact ⟨h0, h1⟩
  · constructor
    · have hb : 0 < cfg.benchmark age.toNat := hbench age.toNat (by omega) (by omega)
      have hx : 0 ≤ actual * ((65/100) / cfg.benchmark age.toNat) := by positivity
      exact le_min hx (by norm_num)
    · exact min_le_right _ _

theorem weighted_sum_bounds (L : List (ℕ × ℚ))
    (h : ∀ p ∈ L, 0 ≤ p.2 ∧ p.2 ≤ 1) :
    0 ≤ (L.map (fun p => (p.1 : ℚ) * p.2)).sum ∧
    (L.map (fun p => (p.1 : ℚ) * p.2)).sum ≤
      ((((L.map (fun p => p.1)).sum : ℕ)) : ℚ) := by
  induction L with
  | nil => simp
  | cons p ps ih =>
    obtain ⟨hp0, hp1⟩ := h p (List.mem_cons_self p ps)
    obtain ⟨ih0, ih1⟩ := ih (fun q hq => h q (List.mem_cons_of_mem p hq))
    simp only [List.map_cons, List.sum_cons]
    have hterm0 : 0 ≤ (p.1 : ℚ) * p.2 := by positivity
    have hterm1 : (p.1 : ℚ) * p.2 ≤ (p.1 : ℚ) := by
      nlinarith [Nat.cast_nonneg (α := ℚ) p.1]
    constructor
    · linarith
    · rw [Nat.cast_add]
      linarith

/-- C8: under the preconditions the spec states for the injected
configuration — the BoughtOut status set is a subset of the Approved status
set and every benchmark rate lies in (0, 1] — every percentage produced by
the core (approve_pct, buyout_pct, trash_pct of `WebmasterMetrics`, and the
adjusted buyout percentage) lies in [0, 100] for every lead set and
webmaster. -/
theorem percentages_in_range (cfg : Config)
    (hsub : ∀ s ∈ cfg.buyoutStatuses, s ∈ cfg.approveStatuses)
    (hbench : ∀ n : ℕ, n ≤ 8 → 1 ≤ n →
      0 < cfg.benchmark n ∧ cfg.benchmark n ≤ 1)
    (df : List Lead) (wm : String) (ad period_days : ℤ) :
    (0 ≤ (calc_webmaster_metrics cfg df wm).approve_pct ∧
      (calc_webmaster_metrics cfg df wm).approve_pct ≤ 100) ∧
    (0 ≤ (calc_webmaster_metrics cfg df wm).buyout_pct ∧
      (calc_webmaster_metrics cfg df wm).buyout_pct ≤ 100) ∧
    (0 ≤ (calc_webmaster_metrics cfg df wm).trash_pct ∧
      (calc_webmaster_metrics cfg df wm).trash_pct ≤ 100) ∧
    (0 ≤ calc_adjusted_buyout cfg df wm ad period_days ∧
      calc_adjusted_buyout cfg df wm ad period_days ≤ 100) := by
  have hbpos : ∀ n : ℕ, n ≤ 8 → 1 ≤ n → 0 < cfg.benchmark n :=
    fun n h1 h2 => (hbench n h1 h2).1
  refine ⟨?_, ?_, ?_, ?_⟩
  · rw [calc_webmaster_metrics_approve_pct]
    exact ⟨_pct_nonneg _ _, _pct_le_100 (countStatus_le_length _ _)⟩
  · rw [calc_webmaster_metrics_buyout_pct]
    exact ⟨_pct_nonneg _ _, _pct_le_100 (countStatus_mono_set hsub _)⟩
  · rw [calc_webmaster_metrics_trash_pct]
    exact ⟨_pct_nonneg _ _, _pct_le_100 (countStatus_le_length _ _)⟩
  · unfold calc_adjusted_buyout
    dsimp only
    split_ifs with hw hz
    · norm_num
    · norm_num
    · rw [adjLoop_eq_spec] at hz ⊢
      dsimp only at hz ⊢
      set L := ((sortedDedupDates (adjWindow df wm ad period_days)).map (fun d =>
        (approvedOf cfg (dayGroup (adjWindow df wm ad period_days) d),
         spec_adjusted_rate cfg (ageOf ad d)
           (actualRateOf cfg (dayGroup (adjWindow df wm ad period_days) d))))).filter
        (fun p => decide (0 < p.1)) with hL
      have hbound : ∀ p ∈ L, 0 ≤ p.2 ∧ p.2 ≤ 1 := by
        intro p hp
        have hp2 := List.mem_of_mem_filter hp
        obtain ⟨d, _, rfl⟩ := List.mem_map.mp hp2
        obtain ⟨ha0, ha1⟩ := actualRateOf_bounds cfg hsub
          (dayGroup (adjWindow df wm ad period_days) d)
        exact spec_adjusted_rate_bounds cfg (ageOf ad d) _ (ageOf_pos ad d)
          ha0 ha1 hbpos
      obtain ⟨hs0, hs1⟩ := weighted_sum_bounds L hbound
      have hz' : ((L.map (fun p => p.1)).sum : ℕ) ≠ 0 := hz
      have hApos : (0 : ℚ) < (((L.map (fun p => p.1)).sum : ℕ) : ℚ) := by
        have h2 : 0 < ((L.map (fun p => p.1)).sum : ℕ) := Nat.pos_of_ne_zero hz'
        exact_mod_cast h2
      have hq0 : (0 : ℚ) ≤ (L.map (fun p => (p.1 : ℚ) * p.2)).sum /
          (((L.map (fun p => p.1)).sum : ℕ) : ℚ) * 100 := by positivity
      have hq1 : (L.map (fun p => (p.1 : ℚ) * p.2)).sum /
          (((L.map (fun p => p.1)).sum : ℕ) : ℚ) * 100 ≤ ((100 : ℤ) : ℚ) := by
        have hr : (L.map (fun p => (p.1 : ℚ) * p.2)).sum /
            (((L.map (fun p => p.1)).sum : ℕ) : ℚ) ≤ 1 := by
          rw [div_le_one hApos]
          exact hs1
        have h2 := mul_le_mul_of_nonneg_right hr (by norm_num : (0:ℚ) ≤ 100)
        rw [one_mul] at h2
        rw [show ((100 : ℤ) : ℚ) = 100 from by norm_num]
        exact h2
      constructor
      · exact pyRound_nonneg hq0 2
      · have hle := pyRound_le_intCast hq1 2
        exact_mod_cast hle

/-- Witness for C8: the example configuration satisfies both preconditions
and the bounds hold at a concrete lead set. -/
theorem percentages_in_range_witness :
    (0 ≤ (calc_webmaster_metrics cfgEx dfW "A").approve_pct ∧
      (calc_webmaster_metrics cfgEx dfW "A").approve_pct ≤ 100) ∧
    (0 ≤ (calc_webmaster_metrics cfgEx dfW "A").buyout_pct ∧
      (calc_webmaster_metrics cfgEx dfW "A").buyout_pct ≤ 100) ∧
    (0 ≤ (calc_webmaster_metrics cfgEx dfW "A").trash_pct ∧
      (calc_webmaster_metrics cfgEx dfW "A").trash_pct ≤ 100) ∧
    (0 ≤ calc_adjusted_buyout cfgEx dfW "A" 5 30 ∧
      calc_adjusted_buyout cfgEx dfW "A" 5 30 ≤ 100) :=
  percentages_in_range cfgEx (by decide)
    (by
      intro n h1 h2
      interval_cases n <;> norm_num [benchEx, cfgEx])
    dfW "A" 5 30

end TrafficQuality
